import Mathlib

/-!
Verification of the training control loop of `src/bin/training/train.py`
(function `main`, lines 296-499) and of the gated convolutional encoder
`neural_sp/models/seq2seq/encoders/gated_conv.py` (`GatedConvEncoder.forward`).

The driver's scalars are embedded as exact numbers: Python's arbitrary
precision ints become `Int`/`Nat`, and the float-valued scalars (losses,
metrics, learning rate) become `ℚ`, so that comparisons and arithmetic are
the exact operations the control flow branches on.  External collaborators
(dataset, updater, metric evaluators, learning-rate controller) are kept
behind the same call boundaries as in the source: their per-call results are
oracle inputs of each loop iteration, and the controller's `decay_lr` is a
configuration-supplied function.
-/

namespace NeuralSP

/-- The optimizer configuration the driver hands to `model.set_optimizer`:
the algorithm name (a string in the source, e.g. `'adam'` or `'sgd'`), the
initial learning rate, the weight decay and the gradient-clipping ceiling
(train.py lines 210-217 and 465-472). -/
structure OptimizerState where
  kind : String
  lr : ℚ
  weight_decay : ℚ
  clip_grad_norm : ℚ
deriving DecidableEq

/-- The configuration surface consumed by the control flow of `main`
(train.py): `args.ngpus` (an int, default 0, negative means CPU, lines
38-39) and the `config[...]` keys that steer the loop, plus the
learning-rate controller's `decay_lr` behind its call boundary
(the controller class lives outside the driver file; the driver only uses
the returned learning rate, lines 449-453). -/
structure Config where
  ngpus : Int
  print_step : Nat
  num_epoch : Nat
  eval_start_epoch : Nat
  not_improved_patient_epoch : Nat
  convert_to_sgd_epoch : Nat
  learning_rate : ℚ
  weight_decay : ℚ
  clip_grad_norm : ℚ
  weight_noise_std : ℚ
  optimizer : String
  label_type : List Char
  decay_lr : ℚ → Nat → ℚ → ℚ

/-- The driver's mutable loop state: `epoch`, `step`, `learning_rate`,
`metric_dev_best`, `not_improved_epoch` (train.py lines 219-221, 243-244,
299), the running sums `loss_train_mean`/`acc_train_mean` (line 300), the
optimizer currently attached to the model, and the model's
`weight_noise_injection` flag (line 477). -/
structure LoopState where
  epoch : Nat
  step : Int
  learning_rate : ℚ
  metric_dev_best : ℚ
  not_improved_epoch : Nat
  loss_train_mean : ℚ
  acc_train_mean : ℚ
  optimizer : OptimizerState
  weight_noise_injection : Bool
deriving DecidableEq

/-- The TrainingState of spec section 3: the five scalars `epoch`, `step`,
`learningRate`, `bestMetric`, `notImprovedEpochCount`. -/
structure TrainingState where
  epoch : Nat
  step : Int
  learning_rate : ℚ
  metric_dev_best : ℚ
  not_improved_epoch : Nat
deriving DecidableEq

/-- Project the spec's TrainingState out of the full loop state. -/
def LoopState.trainingState (s : LoopState) : TrainingState :=
  ⟨s.epoch, s.step, s.learning_rate, s.metric_dev_best, s.not_improved_epoch⟩

/-- The scalar payload of a checkpoint: the four scalars the driver passes
to `model.module.save_checkpoint(save_path, epoch, step, learning_rate,
metric_dev_best)` (train.py lines 354-356 and 396-398). -/
structure CheckpointFile where
  epoch : Nat
  step : Int
  learning_rate : ℚ
  metric_dev_best : ℚ
deriving DecidableEq

/-- Modelled from the spec: `model.save_checkpoint` is not under `src/`
(it belongs to the model classes, an external collaborator); per the spec's
Trainable Model contract it durably stores the four scalar TrainingState
fields it is given. -/
def save_checkpoint (epoch : Nat) (step : Int)
    (learning_rate metric_dev_best : ℚ) : CheckpointFile :=
  ⟨epoch, step, learning_rate, metric_dev_best⟩

/-- Modelled from the spec: `model.load_checkpoint(..., restart=True)` is
not under `src/`; per the spec's Trainable Model contract it returns the
four stored scalars `(epoch, step, learning_rate, metric_dev_best)`
(train.py lines 243-244 destructure exactly these). -/
def load_checkpoint (c : CheckpointFile) : Nat × Int × ℚ × ℚ :=
  (c.epoch, c.step, c.learning_rate, c.metric_dev_best)

/-- A checkpoint artifact as produced by the run: the stored scalar payload
together with a ghost snapshot of the full driver state at the moment of the
`save_checkpoint` call, used only to state resumption exactness. -/
structure Checkpoint where
  file : CheckpointFile
  snapshot : LoopState
deriving DecidableEq

/-- Writing a checkpoint from driver state `s`: the stored payload is the
four scalars of `s` (train.py lines 354-356, 396-398). -/
def write_checkpoint (s : LoopState) : Checkpoint :=
  ⟨save_checkpoint s.epoch s.step s.learning_rate s.metric_dev_best, s⟩

/-- The driver state after a fresh start (train.py lines 219-221: `epoch,
step = 1, 0`, `learning_rate = config['learning_rate']`,
`metric_dev_best = 100`; line 299: `not_improved_epoch = 0`; line 300:
zero running sums; lines 210-217: the initial `set_optimizer` call). -/
def init_state (cfg : Config) : LoopState :=
  { epoch := 1, step := 0, learning_rate := cfg.learning_rate,
    metric_dev_best := 100, not_improved_epoch := 0,
    loss_train_mean := 0, acc_train_mean := 0,
    optimizer := ⟨cfg.optimizer, cfg.learning_rate, cfg.weight_decay,
      cfg.clip_grad_norm⟩,
    weight_noise_injection := false }

/-- The driver state after restarting from a checkpoint (train.py lines
224-244: `set_optimizer` from the config then `epoch, step, learning_rate,
metric_dev_best = model.load_checkpoint(...)`; line 299 resets
`not_improved_epoch = 0`; line 300 zeroes the running sums). -/
def restart_state (cfg : Config) (c : CheckpointFile) : LoopState :=
  { epoch := c.epoch, step := c.step, learning_rate := c.learning_rate,
    metric_dev_best := c.metric_dev_best, not_improved_epoch := 0,
    loss_train_mean := 0, acc_train_mean := 0,
    optimizer := ⟨cfg.optimizer, cfg.learning_rate, cfg.weight_decay,
      cfg.clip_grad_norm⟩,
    weight_noise_injection := false }

/-- What one pass through the epoch-boundary block (train.py lines 344-486)
produces: the next driver state, the checkpoints written (zero or one),
whether `lr_controller.decay_lr` was invoked, whether the convert-to-SGD
block ran, whether the early-stopping `break` (line 439) fired, and whether
the `while` loop terminated (either `break`). -/
structure BoundaryResult where
  state : LoopState
  ckpts : List Checkpoint
  decay_invoked : Bool
  converted : Bool
  early_stop : Bool
  terminated : Bool
deriving DecidableEq

/-- The tail of the evaluated-epoch branch after the improve/not-improve
update (train.py lines 437-486): the early-stopping check
`not_improved_epoch == config['not_improved_patient_epoch']` (line 438,
`break` at 439), then `lr_controller.decay_lr` updating the optimizer and
`learning_rate` (lines 449-453), then the convert-to-SGD block gated by
`epoch == config['convert_to_sgd_epoch']` (lines 463-477), then the
`epoch == config['num_epoch']` break (lines 481-482) or `epoch += 1`
(line 486). -/
def eval_tail (cfg : Config) (s1 : LoopState) (metric_dev : ℚ)
    (cks : List Checkpoint) : BoundaryResult :=
  if s1.not_improved_epoch = cfg.not_improved_patient_epoch then
    ⟨s1, cks, false, false, true, true⟩
  else
    let lr := cfg.decay_lr s1.learning_rate s1.epoch metric_dev
    let s2 := { s1 with learning_rate := lr,
                        optimizer := { s1.optimizer with lr := lr } }
    let s3 :=
      if s2.epoch = cfg.convert_to_sgd_epoch then
        { s2 with
          optimizer := ⟨"sgd", lr, cfg.weight_decay, cfg.clip_grad_norm⟩,
          weight_noise_injection :=
            if 0 < cfg.weight_noise_std then true
            else s2.weight_noise_injection }
      else s2
    let conv := decide (s2.epoch = cfg.convert_to_sgd_epoch)
    if s3.epoch = cfg.num_epoch then ⟨s3, cks, true, conv, false, true⟩
    else ⟨{ s3 with epoch := s3.epoch + 1 }, cks, true, conv, false, false⟩

/-- The epoch-boundary block (train.py lines 344-486), entered when
`is_new_epoch` is true.  `metric_dev` is the scalar the selected dev-set
Metric Evaluator returned (an external collaborator, lines 360-388).
Warm-up branch (lines 352-356): `epoch < config['eval_start_epoch']` writes
a checkpoint unconditionally; otherwise the improve/not-improve update
(lines 390-432: on strict improvement record the new best, reset
`not_improved_epoch`, write a checkpoint; else increment
`not_improved_epoch`) feeds `eval_tail`.  Both branches end with the
`epoch == config['num_epoch']` break (lines 481-482) or `epoch += 1`. -/
def epoch_boundary (cfg : Config) (s : LoopState) (metric_dev : ℚ) :
    BoundaryResult :=
  if s.epoch < cfg.eval_start_epoch then
    let ck := write_checkpoint s
    if s.epoch = cfg.num_epoch then ⟨s, [ck], false, false, false, true⟩
    else ⟨{ s with epoch := s.epoch + 1 }, [ck], false, false, false, false⟩
  else
    if metric_dev < s.metric_dev_best then
      let s1 := { s with metric_dev_best := metric_dev,
                         not_improved_epoch := 0 }
      eval_tail cfg s1 metric_dev [write_checkpoint s1]
    else
      eval_tail cfg { s with not_improved_epoch := s.not_improved_epoch + 1 }
        metric_dev []

/-- The oracle inputs one loop iteration consumes from collaborators:
`is_new_epoch` from `train_set.next()` (line 304), the training-batch loss
and accuracy from the updater (line 305), the dev-batch loss and accuracy
from the evaluation-mode updater (line 313), the dev metric the evaluator
would return at an epoch boundary (lines 360-388), and `fail = some e` when
the batch source or updater raises at the start of this iteration (the
exception propagates and aborts `main`; there is no handler in the
driver). -/
structure IterInput where
  is_new_epoch : Bool
  loss_train : ℚ
  acc_train : ℚ
  loss_dev : ℚ
  acc_dev : ℚ
  metric_dev : ℚ
  fail : Option String
deriving DecidableEq

/-- The tuple forwarded to `reporter.step(step, loss_train_mean, loss_dev,
acc_train_mean, acc_dev)` at a print-interval boundary (train.py lines
317-318), after the running sums were divided by `print_step`. -/
structure Report where
  step : Int
  loss_train_mean : ℚ
  loss_dev : ℚ
  acc_train_mean : ℚ
  acc_dev : ℚ
deriving DecidableEq

/-- What one full iteration of the `while True` loop produces. -/
structure IterResult where
  state : LoopState
  report : Option Report
  ckpts : List Checkpoint
  decay_invoked : Bool
  converted : Bool
  early_stop : Bool
  terminated : Bool
deriving DecidableEq

/-- The tail of a loop iteration after the print-interval block and the
`step += args.ngpus` advance (train.py line 341): run the epoch-boundary
block when `is_new_epoch` holds (lines 344-486), else fall through. -/
def step_tail (cfg : Config) (s1 : LoopState) (inp : IterInput)
    (rep : Option Report) : IterResult :=
  if inp.is_new_epoch then
    let b := epoch_boundary cfg s1 inp.metric_dev
    ⟨b.state, rep, b.ckpts, b.decay_invoked, b.converted, b.early_stop,
      b.terminated⟩
  else ⟨s1, rep, [], false, false, false, false⟩

/-- One iteration of the `while True` loop (train.py lines 302-486):
accumulate the training loss/accuracy into the running sums (lines
306-307); if `(step + 1) % config['print_step'] == 0` (line 310), average
the sums over `print_step`, report them together with the dev-batch values
(lines 315-318) and zero the sums (line 340); advance
`step += args.ngpus` (line 341); then the epoch-boundary block if
`is_new_epoch` (line 344). -/
def loop_iter (cfg : Config) (s : LoopState) (inp : IterInput) : IterResult :=
  let lm := s.loss_train_mean + inp.loss_train
  let am := s.acc_train_mean + inp.acc_train
  if (s.step + 1) % (cfg.print_step : Int) = 0 then
    let rep : Report := ⟨s.step, lm / (cfg.print_step : ℚ), inp.loss_dev,
                         am / (cfg.print_step : ℚ), inp.acc_dev⟩
    step_tail cfg
      { s with loss_train_mean := 0, acc_train_mean := 0,
               step := s.step + cfg.ngpus }
      inp (some rep)
  else
    step_tail cfg
      { s with loss_train_mean := lm, acc_train_mean := am,
               step := s.step + cfg.ngpus }
      inp none

/-- How a (finite prefix of a) run ends: still inside the loop, terminated
by the early-stopping `break`, terminated by the `epoch == num_epoch`
break, or aborted by a collaborator exception. -/
inductive Outcome where
  | running
  | early_stopped
  | reached_num_epoch
  | failed (e : String)
deriving DecidableEq

/-- The observable result of driving the loop over a list of per-iteration
oracle inputs: final state, all checkpoints written in order, how many
times the convert-to-SGD block ran, whether the COMPLETE marker was written
(train.py lines 495-497, reached only after the `while` loop exits), and
the outcome. -/
structure RunResult where
  state : LoopState
  ckpts : List Checkpoint
  conversions : Nat
  marker : Bool
  outcome : Outcome
deriving DecidableEq

/-- Drive the `while True` loop (train.py lines 302-497) over a finite list
of per-iteration oracle inputs.  An iteration whose input carries
`fail = some e` models the batch source or updater raising: the exception
propagates out of `main`, so nothing further runs and no COMPLETE marker is
written.  When an iteration terminates the loop (either `break`), the
COMPLETE marker is written (lines 495-497).  If the inputs are exhausted
first, the loop is still running and no marker exists yet. -/
def run (cfg : Config) (s : LoopState) : List IterInput → RunResult
  | [] => ⟨s, [], 0, false, .running⟩
  | inp :: rest =>
    match inp.fail with
    | some e => ⟨s, [], 0, false, .failed e⟩
    | none =>
      let r := loop_iter cfg s inp
      if r.terminated then
        ⟨r.state, r.ckpts, if r.converted then 1 else 0, true,
          if r.early_stop then .early_stopped else .reached_num_epoch⟩
      else
        let rr := run cfg r.state rest
        ⟨rr.state, r.ckpts ++ rr.ckpts,
          (if r.converted then 1 else 0) + rr.conversions,
          rr.marker, rr.outcome⟩

/-- `starts_with p l` holds when `p` is an initial segment of `l`. -/
def starts_with : List Char → List Char → Bool
  | [], _ => true
  | _ :: _, [] => false
  | p :: ps, c :: cs => (p == c) && starts_with ps cs

/-- `has_sub p l` is Python's substring containment `p in l`. -/
def has_sub (p : List Char) : List Char → Bool
  | [] => p.isEmpty
  | c :: cs => starts_with p (c :: cs) || has_sub p cs

/-- The three Metric Evaluator variants of train.py: `eval_word`,
`eval_char`, `eval_phone`. -/
inductive EvaluatorKind where
  | word
  | char
  | phone
deriving DecidableEq

/-- Outcome of the label-type dispatch: a selected evaluator or the
`ValueError(config['label_type'])` of train.py line 388. -/
inductive EvalChoice where
  | ok (k : EvaluatorKind)
  | value_error (label_type : List Char)
deriving DecidableEq

/-- The dev-set evaluator dispatch at an evaluated epoch boundary
(train.py lines 360-388): `config['label_type'] == 'word'` selects
`eval_word`; else `'character' in config['label_type']` (substring test)
selects `eval_char`; else `'phone' in config['label_type']` selects
`eval_phone`; else `raise ValueError(config['label_type'])`. -/
def select_evaluator (label_type : List Char) : EvalChoice :=
  if label_type = "word".toList then .ok .word
  else if has_sub "character".toList label_type then .ok .char
  else if has_sub "phone".toList label_type then .ok .phone
  else .value_error label_type

/-- The gated convolutional encoder
(`neural_sp/models/seq2seq/encoders/gated_conv.py`).  Its sub-modules
(`self.layers` of GLUBlocks, the weight-normed `fc_glu` linear layer, the
`F.glu` activation, the input reshape of line 92, the feature collapse of
lines 97-98, and the optional bottleneck of lines 68-70) are external
modules (`GLUBlock`, `LinearND`, torch) not under `src/`, so they are
abstract transforms on an abstract tensor type `T`; the composition order
and the `bottleneck_dim > 0` gate are the source's. -/
structure GatedConvEncoder (T : Type) where
  layers : T → T
  fc_glu : T → T
  glu : T → T
  transpose_unsqueeze : T → T
  collapse : T → T
  bottleneck_dim : Nat
  bottleneck : T → T

/-- `GatedConvEncoder.forward` (gated_conv.py lines 78-110): reshape the
input, run the GLU blocks, collapse the feature dimension, apply the final
weight-normed GLU layer, optionally the bottleneck, and return the
transformed tensor together with the *unchanged* `xlens` (the
`xlens = [xlen // 8 ...]` update on line 108 is commented out). -/
def GatedConvEncoder.forward {T : Type} (enc : GatedConvEncoder T)
    (xs : T) (xlens : List Nat) : T × List Nat :=
  let xs1 := enc.transpose_unsqueeze xs
  let xs2 := enc.layers xs1
  let xs3 := enc.collapse xs2
  let xs4 := enc.glu (enc.fc_glu xs3)
  let xs5 := if 0 < enc.bottleneck_dim then enc.bottleneck xs4 else xs4
  (xs5, xlens)

/-! ## Field characterizations of the loop building blocks -/

theorem eval_tail_ckpts (cfg : Config) (s1 : LoopState) (m : ℚ)
    (cks : List Checkpoint) : (eval_tail cfg s1 m cks).ckpts = cks := by
  simp only [eval_tail]
  split_ifs <;> rfl

theorem eval_tail_early_stop (cfg : Config) (s1 : LoopState) (m : ℚ)
    (cks : List Checkpoint) :
    (eval_tail cfg s1 m cks).early_stop
      = decide (s1.not_improved_epoch = cfg.not_improved_patient_epoch) := by
  simp only [eval_tail]
  split_ifs <;> simp_all

theorem eval_tail_decay_invoked (cfg : Config) (s1 : LoopState) (m : ℚ)
    (cks : List Checkpoint) :
    (eval_tail cfg s1 m cks).decay_invoked
      = !decide (s1.not_improved_epoch = cfg.not_improved_patient_epoch) := by
  simp only [eval_tail]
  split_ifs <;> simp_all

theorem eval_tail_converted (cfg : Config) (s1 : LoopState) (m : ℚ)
    (cks : List Checkpoint) :
    (eval_tail cfg s1 m cks).converted
      = (!decide (s1.not_improved_epoch = cfg.not_improved_patient_epoch)
          && decide (s1.epoch = cfg.convert_to_sgd_epoch)) := by
  simp only [eval_tail]
  split_ifs <;> simp_all

theorem eval_tail_terminated (cfg : Config) (s1 : LoopState) (m : ℚ)
    (cks : List Checkpoint) :
    (eval_tail cfg s1 m cks).terminated
      = (decide (s1.not_improved_epoch = cfg.not_improved_patient_epoch)
          || decide (s1.epoch = cfg.num_epoch)) := by
  simp only [eval_tail]
  split_ifs <;> simp_all

theorem eval_tail_state_step (cfg : Config) (s1 : LoopState) (m : ℚ)
    (cks : List Checkpoint) : (eval_tail cfg s1 m cks).state.step = s1.step := by
  simp only [eval_tail]
  split_ifs <;> simp_all

theorem eval_tail_state_nie (cfg : Config) (s1 : LoopState) (m : ℚ)
    (cks : List Checkpoint) :
    (eval_tail cfg s1 m cks).state.not_improved_epoch
      = s1.not_improved_epoch := by
  simp only [eval_tail]
  split_ifs <;> simp_all

theorem eval_tail_state_best (cfg : Config) (s1 : LoopState) (m : ℚ)
    (cks : List Checkpoint) :
    (eval_tail cfg s1 m cks).state.metric_dev_best = s1.metric_dev_best := by
  simp only [eval_tail]
  split_ifs <;> simp_all

theorem eval_tail_state_loss (cfg : Config) (s1 : LoopState) (m : ℚ)
    (cks : List Checkpoint) :
    (eval_tail cfg s1 m cks).state.loss_train_mean = s1.loss_train_mean := by
  simp only [eval_tail]
  split_ifs <;> simp_all

theorem eval_tail_state_acc (cfg : Config) (s1 : LoopState) (m : ℚ)
    (cks : List Checkpoint) :
    (eval_tail cfg s1 m cks).state.acc_train_mean = s1.acc_train_mean := by
  simp only [eval_tail]
  split_ifs <;> simp_all

theorem eval_tail_state_epoch (cfg : Config) (s1 : LoopState) (m : ℚ)
    (cks : List Checkpoint) :
    (eval_tail cfg s1 m cks).state.epoch
      = if s1.not_improved_epoch = cfg.not_improved_patient_epoch
            ∨ s1.epoch = cfg.num_epoch
        then s1.epoch else s1.epoch + 1 := by
  simp only [eval_tail]
  split_ifs <;> simp_all

theorem eval_tail_state_lr (cfg : Config) (s1 : LoopState) (m : ℚ)
    (cks : List Checkpoint) :
    (eval_tail cfg s1 m cks).state.learning_rate
      = if s1.not_improved_epoch = cfg.not_improved_patient_epoch
        then s1.learning_rate
        else cfg.decay_lr s1.learning_rate s1.epoch m := by
  simp only [eval_tail]
  split_ifs <;> simp_all

theorem eval_tail_state_optimizer (cfg : Config) (s1 : LoopState) (m : ℚ)
    (cks : List Checkpoint) :
    (eval_tail cfg s1 m cks).state.optimizer
      = if s1.not_improved_epoch = cfg.not_improved_patient_epoch
        then s1.optimizer
        else if s1.epoch = cfg.convert_to_sgd_epoch
        then ⟨"sgd", cfg.decay_lr s1.learning_rate s1.epoch m,
              cfg.weight_decay, cfg.clip_grad_norm⟩
        else { s1.optimizer with
               lr := cfg.decay_lr s1.learning_rate s1.epoch m } := by
  simp only [eval_tail]
  split_ifs <;> simp_all

theorem eval_tail_state_wni (cfg : Config) (s1 : LoopState) (m : ℚ)
    (cks : List Checkpoint) :
    (eval_tail cfg s1 m cks).state.weight_noise_injection
      = if s1.not_improved_epoch = cfg.not_improved_patient_epoch
        then s1.weight_noise_injection
        else if s1.epoch = cfg.convert_to_sgd_epoch
        then (if 0 < cfg.weight_noise_std then true
              else s1.weight_noise_injection)
        else s1.weight_noise_injection := by
  simp only [eval_tail]
  split_ifs <;> simp_all

theorem epoch_boundary_warm (cfg : Config) (s : LoopState) (m : ℚ)
    (h : s.epoch < cfg.eval_start_epoch) :
    epoch_boundary cfg s m
      = ⟨if s.epoch = cfg.num_epoch then s else { s with epoch := s.epoch + 1 },
         [write_checkpoint s], false, false, false,
         decide (s.epoch = cfg.num_epoch)⟩ := by
  unfold epoch_boundary
  rw [if_pos h]
  split_ifs <;> simp_all

theorem epoch_boundary_eval (cfg : Config) (s : LoopState) (m : ℚ)
    (h : ¬ s.epoch < cfg.eval_start_epoch) :
    epoch_boundary cfg s m
      = if m < s.metric_dev_best
        then eval_tail cfg
          { s with metric_dev_best := m, not_improved_epoch := 0 } m
          [write_checkpoint
            { s with metric_dev_best := m, not_improved_epoch := 0 }]
        else eval_tail cfg
          { s with not_improved_epoch := s.not_improved_epoch + 1 } m [] := by
  unfold epoch_boundary
  rw [if_neg h]

theorem epoch_boundary_state_step (cfg : Config) (s : LoopState) (m : ℚ) :
    (epoch_boundary cfg s m).state.step = s.step := by
  by_cases h : s.epoch < cfg.eval_start_epoch
  · rw [epoch_boundary_warm cfg s m h]
    split_ifs <;> rfl
  · rw [epoch_boundary_eval cfg s m h]
    split_ifs <;> rw [eval_tail_state_step]

theorem epoch_boundary_state_loss (cfg : Config) (s : LoopState) (m : ℚ) :
    (epoch_boundary cfg s m).state.loss_train_mean = s.loss_train_mean := by
  by_cases h : s.epoch < cfg.eval_start_epoch
  · rw [epoch_boundary_warm cfg s m h]
    split_ifs <;> rfl
  · rw [epoch_boundary_eval cfg s m h]
    split_ifs <;> rw [eval_tail_state_loss]

theorem epoch_boundary_state_acc (cfg : Config) (s : LoopState) (m : ℚ) :
    (epoch_boundary cfg s m).state.acc_train_mean = s.acc_train_mean := by
  by_cases h : s.epoch < cfg.eval_start_epoch
  · rw [epoch_boundary_warm cfg s m h]
    split_ifs <;> rfl
  · rw [epoch_boundary_eval cfg s m h]
    split_ifs <;> rw [eval_tail_state_acc]

theorem epoch_boundary_epoch_ge (cfg : Config) (s : LoopState) (m : ℚ) :
    s.epoch ≤ (epoch_boundary cfg s m).state.epoch := by
  by_cases h : s.epoch < cfg.eval_start_epoch
  · rw [epoch_boundary_warm cfg s m h]
    split_ifs <;> simp
  · rw [epoch_boundary_eval cfg s m h]
    split_ifs <;> rw [eval_tail_state_epoch] <;> split_ifs <;> simp

theorem epoch_boundary_converted_eq (cfg : Config) (s : LoopState) (m : ℚ)
    (h : (epoch_boundary cfg s m).converted = true) :
    s.epoch = cfg.convert_to_sgd_epoch := by
  by_cases hw : s.epoch < cfg.eval_start_epoch
  · rw [epoch_boundary_warm cfg s m hw] at h
    simp at h
  · rw [epoch_boundary_eval cfg s m hw] at h
    split_ifs at h <;> rw [eval_tail_converted] at h <;> simp_all

theorem epoch_boundary_epoch_succ (cfg : Config) (s : LoopState) (m : ℚ)
    (h : (epoch_boundary cfg s m).terminated = false) :
    (epoch_boundary cfg s m).state.epoch = s.epoch + 1 := by
  by_cases hw : s.epoch < cfg.eval_start_epoch
  · rw [epoch_boundary_warm cfg s m hw] at h ⊢
    simp at h
    simp [h]
  · rw [epoch_boundary_eval cfg s m hw] at h ⊢
    split_ifs at h ⊢ <;>
      rw [eval_tail_terminated] at h <;>
      rw [eval_tail_state_epoch] <;>
      simp_all

theorem step_tail_report (cfg : Config) (s1 : LoopState) (inp : IterInput)
    (rep : Option Report) : (step_tail cfg s1 inp rep).report = rep := by
  unfold step_tail
  split_ifs <;> rfl

theorem step_tail_false (cfg : Config) (s1 : LoopState) (inp : IterInput)
    (rep : Option Report) (h : inp.is_new_epoch = false) :
    step_tail cfg s1 inp rep = ⟨s1, rep, [], false, false, false, false⟩ := by
  unfold step_tail
  rw [if_neg (by simp [h])]

theorem step_tail_true (cfg : Config) (s1 : LoopState) (inp : IterInput)
    (rep : Option Report) (h : inp.is_new_epoch = true) :
    step_tail cfg s1 inp rep
      = ⟨(epoch_boundary cfg s1 inp.metric_dev).state, rep,
         (epoch_boundary cfg s1 inp.metric_dev).ckpts,
         (epoch_boundary cfg s1 inp.metric_dev).decay_invoked,
         (epoch_boundary cfg s1 inp.metric_dev).converted,
         (epoch_boundary cfg s1 inp.metric_dev).early_stop,
         (epoch_boundary cfg s1 inp.metric_dev).terminated⟩ := by
  unfold step_tail
  rw [if_pos h]

/-- The state handed to `step_tail` by `loop_iter`: running sums either
reset (print-interval boundary) or accumulated, and `step` advanced by
`ngpus`. -/
def advanced (cfg : Config) (s : LoopState) (inp : IterInput) : LoopState :=
  { s with
    loss_train_mean :=
      if (s.step + 1) % (cfg.print_step : Int) = 0 then 0
      else s.loss_train_mean + inp.loss_train,
    acc_train_mean :=
      if (s.step + 1) % (cfg.print_step : Int) = 0 then 0
      else s.acc_train_mean + inp.acc_train,
    step := s.step + cfg.ngpus }

theorem loop_iter_eq (cfg : Config) (s : LoopState) (inp : IterInput) :
    loop_iter cfg s inp
      = step_tail cfg (advanced cfg s inp) inp
          (if (s.step + 1) % (cfg.print_step : Int) = 0
           then some ⟨s.step,
             (s.loss_train_mean + inp.loss_train) / (cfg.print_step : ℚ),
             inp.loss_dev,
             (s.acc_train_mean + inp.acc_train) / (cfg.print_step : ℚ),
             inp.acc_dev⟩
           else none) := by
  unfold loop_iter advanced
  split_ifs with h <;> simp [h]

/-! ## Concrete fixtures used by the witnesses -/

/-- A concrete configuration: single GPU, patience 2, evaluation from the
first epoch, conversion epoch far away. -/
def cfgA : Config :=
  { ngpus := 1, print_step := 100, num_epoch := 20, eval_start_epoch := 1,
    not_improved_patient_epoch := 2, convert_to_sgd_epoch := 30,
    learning_rate := 1, weight_decay := 0, clip_grad_norm := 5,
    weight_noise_std := 0, optimizer := "adam",
    label_type := "word".toList,
    decay_lr := fun lr _ _ => lr / 2 }

/-- `cfgA` with a warm-up period: evaluation starts at epoch 5. -/
def cfgB : Config := { cfgA with eval_start_epoch := 5 }

/-- A concrete mid-run driver state at an evaluated epoch. -/
def sA : LoopState :=
  { epoch := 3, step := 200, learning_rate := 1, metric_dev_best := 40,
    not_improved_epoch := 1, loss_train_mean := 0, acc_train_mean := 0,
    optimizer := ⟨"adam", 1, 0, 5⟩, weight_noise_injection := false }

/-- A concrete driver state still in warm-up (for `cfgB`). -/
def sB : LoopState := { sA with epoch := 2, not_improved_epoch := 0 }

/-- A concrete mid-epoch iteration input (no epoch boundary, no failure). -/
def inpA : IterInput :=
  { is_new_epoch := false, loss_train := 1, acc_train := 0, loss_dev := 2,
    acc_dev := 0, metric_dev := 50, fail := none }

/-! ## Claims -/

/-- Claim C1: at an epoch boundary with `epoch >= eval_start_epoch`, the
early-stopping break fires (and terminates the loop) exactly when
`not_improved_epoch` equals `config['not_improved_patient_epoch']` after
the improve/not-improve update, and when it fires `decay_lr` is not
invoked for that epoch. -/
theorem early_stop_iff_patience (cfg : Config) (s : LoopState) (m : ℚ)
    (h : cfg.eval_start_epoch ≤ s.epoch) :
    ((epoch_boundary cfg s m).early_stop = true ↔
      (if m < s.metric_dev_best then 0 else s.not_improved_epoch + 1)
        = cfg.not_improved_patient_epoch) ∧
    ((epoch_boundary cfg s m).early_stop = true →
      (epoch_boundary cfg s m).terminated = true) ∧
    ((epoch_boundary cfg s m).early_stop = true →
      (epoch_boundary cfg s m).decay_invoked = false) := by
  have hlt : ¬ s.epoch < cfg.eval_start_epoch := not_lt.mpr h
  rw [epoch_boundary_eval cfg s m hlt]
  by_cases him : m < s.metric_dev_best <;>
    simp [him, eval_tail_early_stop, eval_tail_terminated,
      eval_tail_decay_invoked] <;>
    tauto

/-- Witness for C1: with best metric 40, patience 2 and one prior
non-improved epoch, a dev metric of 50 fires early stop, terminates the
loop and skips the learning-rate decay. -/
theorem early_stop_iff_patience_witness :
    (epoch_boundary cfgA sA 50).early_stop = true ∧
    (epoch_boundary cfgA sA 50).terminated = true ∧
    (epoch_boundary cfgA sA 50).decay_invoked = false := by
  have h := early_stop_iff_patience cfgA sA 50 (by decide)
  have hs : (epoch_boundary cfgA sA 50).early_stop = true :=
    h.1.mpr (by decide)
  exact ⟨hs, h.2.1 hs, h.2.2 hs⟩

/-- Claim C2: at an evaluated epoch boundary, `not_improved_epoch` becomes
0 exactly when `metric_dev < metric_dev_best` holds strictly and is
incremented by exactly 1 otherwise; warm-up boundaries and non-boundary
iterations leave it unchanged. -/
theorem not_improved_epoch_update (cfg : Config) (s : LoopState) (m : ℚ)
    (inp : IterInput) :
    (cfg.eval_start_epoch ≤ s.epoch →
      (epoch_boundary cfg s m).state.not_improved_epoch
        = if m < s.metric_dev_best then 0 else s.not_improved_epoch + 1) ∧
    (s.epoch < cfg.eval_start_epoch →
      (epoch_boundary cfg s m).state.not_improved_epoch
        = s.not_improved_epoch) ∧
    (inp.is_new_epoch = false →
      (loop_iter cfg s inp).state.not_improved_epoch
        = s.not_improved_epoch) := by
  refine ⟨fun h => ?_, fun h => ?_, fun h => ?_⟩
  · have hlt : ¬ s.epoch < cfg.eval_start_epoch := not_lt.mpr h
    rw [epoch_boundary_eval cfg s m hlt]
    by_cases him : m < s.metric_dev_best <;> simp [him, eval_tail_state_nie]
  · rw [epoch_boundary_warm cfg s m h]
    split_ifs <;> rfl
  · rw [loop_iter_eq, step_tail_false cfg _ inp _ h]
    rfl

/-- Witness for C2: a non-improved evaluated epoch increments the counter
from 1 to 2; a warm-up boundary leaves it at 0; a mid-epoch iteration
leaves it at 1. -/
theorem not_improved_epoch_update_witness :
    (epoch_boundary cfgA sA 50).state.not_improved_epoch = 2 ∧
    (epoch_boundary cfgB sB 50).state.not_improved_epoch = 0 ∧
    (loop_iter cfgA sA inpA).state.not_improved_epoch = 1 := by
  have h1 := (not_improved_epoch_update cfgA sA 50 inpA).1 (by decide)
  have h2 := (not_improved_epoch_update cfgB sB 50 inpA).2.1 (by decide)
  have h3 := (not_improved_epoch_update cfgA sA 50 inpA).2.2 (by decide)
  refine ⟨h1.trans (by decide), h2.trans (by decide), h3.trans (by decide)⟩

/-- A boundary input whose dev metric 50 does not improve on `sA`'s best
of 40. -/
def inpB : IterInput := { inpA with is_new_epoch := true }

/-- A boundary input whose dev metric 30 strictly improves on `sA`'s best
of 40. -/
def inpC : IterInput := { inpB with metric_dev := 30 }

/-- Claim C3: an iteration writes a checkpoint exactly when it is an epoch
boundary with either `epoch < eval_start_epoch` (unconditional warm-up
checkpoint) or a strict improvement of the dev metric over
`metric_dev_best`; non-boundary iterations never write one. -/
theorem checkpoint_written_iff (cfg : Config) (s : LoopState)
    (inp : IterInput) :
    (inp.is_new_epoch = true →
      (loop_iter cfg s inp).ckpts.length
        = if s.epoch < cfg.eval_start_epoch
              ∨ inp.metric_dev < s.metric_dev_best
          then 1 else 0) ∧
    (inp.is_new_epoch = false → (loop_iter cfg s inp).ckpts = []) := by
  refine ⟨fun h => ?_, fun h => ?_⟩
  · rw [loop_iter_eq, step_tail_true cfg _ inp _ h]
    by_cases hw : s.epoch < cfg.eval_start_epoch
    · rw [epoch_boundary_warm cfg (advanced cfg s inp) inp.metric_dev hw]
      simp [hw]
    · rw [epoch_boundary_eval cfg (advanced cfg s inp) inp.metric_dev hw]
      by_cases him : inp.metric_dev < s.metric_dev_best <;>
        simp [advanced, him, hw, eval_tail_ckpts]
  · rw [loop_iter_eq, step_tail_false cfg _ inp _ h]

/-- Witness for C3: a non-improved evaluated boundary writes no checkpoint,
an improved one writes exactly one, and a mid-epoch iteration writes
none. -/
theorem checkpoint_written_iff_witness :
    (loop_iter cfgA sA inpB).ckpts.length = 0 ∧
    (loop_iter cfgA sA inpC).ckpts.length = 1 ∧
    (loop_iter cfgA sA inpA).ckpts = [] := by
  have h1 := (checkpoint_written_iff cfgA sA inpB).1 (by decide)
  have h2 := (checkpoint_written_iff cfgA sA inpC).1 (by decide)
  have h3 := (checkpoint_written_iff cfgA sA inpA).2 (by decide)
  exact ⟨h1.trans (by decide), h2.trans (by decide), h3⟩

/-- Counterexample to C4: with the default `--ngpus` value 0 (train.py
lines 38-39), `step += args.ngpus` leaves `step` unchanged, so `step` is
not strictly increasing for every configuration. -/
theorem step_increase_cex :
    ¬ sA.step < (loop_iter { cfgA with ngpus := 0 } sA inpA).state.step := by
  decide

/-- Claim C4 (amended): every iteration advances `step` by exactly
`args.ngpus`; `step` is strictly increasing whenever the configured
fan-out is at least 1 (it is not clamped to 1: the flag defaults to 0 and
may be negative). -/
theorem step_advance (cfg : Config) (s : LoopState) (inp : IterInput) :
    (loop_iter cfg s inp).state.step = s.step + cfg.ngpus ∧
    (1 ≤ cfg.ngpus → s.step < (loop_iter cfg s inp).state.step) := by
  have hstep : (loop_iter cfg s inp).state.step = s.step + cfg.ngpus := by
    rw [loop_iter_eq]
    cases hn : inp.is_new_epoch
    · rw [step_tail_false cfg _ inp _ hn]
      simp [advanced]
    · rw [step_tail_true cfg _ inp _ hn]
      simpa [advanced] using
        epoch_boundary_state_step cfg (advanced cfg s inp) inp.metric_dev
  refine ⟨hstep, fun h => ?_⟩
  rw [hstep]
  omega

/-- Witness for C4 (amended): with fan-out 1, one iteration advances
`step` from 200 to 201. -/
theorem step_advance_witness :
    (1 : Int) ≤ cfgA.ngpus ∧ sA.step < (loop_iter cfgA sA inpA).state.step :=
  ⟨by decide, (step_advance cfgA sA inpA).2 (by decide)⟩

/-- A configuration with print interval 10 and fan-out 2, and a state at
`step = 9` with a nonzero accumulated loss sum. -/
def cfgE : Config := { cfgA with print_step := 10, ngpus := 2 }

/-- State at `step = 9` with accumulated loss sum 7 (for the C5
counterexample). -/
def sE : LoopState := { sA with step := 9, loss_train_mean := 7 }

/-- Counterexample to C5: with fan-out 2 and print interval 10, the
iteration starting at `step = 9` reports and resets the running sums even
though `step` after the advance (11) is not a multiple of the print
interval: the source tests `(step + 1) % print_step == 0` before the
advance, not the advanced `step`. -/
theorem print_interval_cex :
    (loop_iter cfgE sE inpA).state.step % (cfgE.print_step : Int) ≠ 0 ∧
    (loop_iter cfgE sE inpA).report.isSome = true ∧
    (loop_iter cfgE sE inpA).state.loss_train_mean = 0 ∧
    sE.loss_train_mean + inpA.loss_train ≠ 0 := by
  refine ⟨by decide, by decide, by decide, ?_⟩
  norm_num [sE, sA, inpA]

/-- Claim C5 (amended): an iteration reports and resets exactly when
`(step + 1) % print_step == 0` holds for the pre-advance `step` (which
coincides with the claim's "advanced `step` is a multiple of the print
interval" precisely when the fan-out is 1); it then reports the
accumulated sums averaged over `print_step` together with the dev-batch
loss/accuracy and zeroes the sums, and otherwise it only accumulates. -/
theorem report_on_print_interval (cfg : Config) (s : LoopState)
    (inp : IterInput) :
    (loop_iter cfg s inp).report
      = (if (s.step + 1) % (cfg.print_step : Int) = 0
         then some ⟨s.step,
           (s.loss_train_mean + inp.loss_train) / (cfg.print_step : ℚ),
           inp.loss_dev,
           (s.acc_train_mean + inp.acc_train) / (cfg.print_step : ℚ),
           inp.acc_dev⟩
         else none) ∧
    (loop_iter cfg s inp).state.loss_train_mean
      = (if (s.step + 1) % (cfg.print_step : Int) = 0 then 0
         else s.loss_train_mean + inp.loss_train) ∧
    (loop_iter cfg s inp).state.acc_train_mean
      = (if (s.step + 1) % (cfg.print_step : Int) = 0 then 0
         else s.acc_train_mean + inp.acc_train) := by
  refine ⟨?_, ?_, ?_⟩
  · rw [loop_iter_eq, step_tail_report]
  · rw [loop_iter_eq]
    cases hn : inp.is_new_epoch
    · rw [step_tail_false cfg _ inp _ hn]
      simp [advanced]
    · rw [step_tail_true cfg _ inp _ hn]
      simpa [advanced] using
        epoch_boundary_state_loss cfg (advanced cfg s inp) inp.metric_dev
  · rw [loop_iter_eq]
    cases hn : inp.is_new_epoch
    · rw [step_tail_false cfg _ inp _ hn]
      simp [advanced]
    · rw [step_tail_true cfg _ inp _ hn]
      simpa [advanced] using
        epoch_boundary_state_acc cfg (advanced cfg s inp) inp.metric_dev

/-! ## Run-level lemmas -/

theorem run_nil (cfg : Config) (s : LoopState) :
    run cfg s [] = ⟨s, [], 0, false, .running⟩ := rfl

theorem run_cons_fail (cfg : Config) (s : LoopState) (inp : IterInput)
    (rest : List IterInput) (e : String) (hf : inp.fail = some e) :
    run cfg s (inp :: rest) = ⟨s, [], 0, false, .failed e⟩ := by
  conv_lhs => rw [run]
  rw [hf]

theorem run_cons_ok_term (cfg : Config) (s : LoopState) (inp : IterInput)
    (rest : List IterInput) (hf : inp.fail = none)
    (ht : (loop_iter cfg s inp).terminated = true) :
    run cfg s (inp :: rest)
      = ⟨(loop_iter cfg s inp).state, (loop_iter cfg s inp).ckpts,
         if (loop_iter cfg s inp).converted then 1 else 0, true,
         if (loop_iter cfg s inp).early_stop then .early_stopped
         else .reached_num_epoch⟩ := by
  conv_lhs => rw [run]
  rw [hf]
  simp [ht]

theorem run_cons_ok_cont (cfg : Config) (s : LoopState) (inp : IterInput)
    (rest : List IterInput) (hf : inp.fail = none)
    (ht : (loop_iter cfg s inp).terminated = false) :
    run cfg s (inp :: rest)
      = ⟨(run cfg (loop_iter cfg s inp).state rest).state,
         (loop_iter cfg s inp).ckpts
           ++ (run cfg (loop_iter cfg s inp).state rest).ckpts,
         (if (loop_iter cfg s inp).converted then 1 else 0)
           + (run cfg (loop_iter cfg s inp).state rest).conversions,
         (run cfg (loop_iter cfg s inp).state rest).marker,
         (run cfg (loop_iter cfg s inp).state rest).outcome⟩ := by
  conv_lhs => rw [run]
  rw [hf]
  simp [ht]

theorem loop_iter_converted_eq (cfg : Config) (s : LoopState)
    (inp : IterInput) (h : (loop_iter cfg s inp).converted = true) :
    s.epoch = cfg.convert_to_sgd_epoch := by
  rw [loop_iter_eq] at h
  cases hn : inp.is_new_epoch
  · rw [step_tail_false cfg _ inp _ hn] at h
    exact absurd h (by simp)
  · rw [step_tail_true cfg _ inp _ hn] at h
    exact epoch_boundary_converted_eq cfg (advanced cfg s inp) inp.metric_dev h

theorem loop_iter_epoch_ge (cfg : Config) (s : LoopState) (inp : IterInput) :
    s.epoch ≤ (loop_iter cfg s inp).state.epoch := by
  rw [loop_iter_eq]
  cases hn : inp.is_new_epoch
  · rw [step_tail_false cfg _ inp _ hn]
    exact Nat.le_refl s.epoch
  · rw [step_tail_true cfg _ inp _ hn]
    exact epoch_boundary_epoch_ge cfg (advanced cfg s inp) inp.metric_dev

theorem loop_iter_epoch_succ (cfg : Config) (s : LoopState) (inp : IterInput)
    (ht : (loop_iter cfg s inp).terminated = false)
    (hc : (loop_iter cfg s inp).converted = true) :
    (loop_iter cfg s inp).state.epoch = s.epoch + 1 := by
  rw [loop_iter_eq] at ht hc ⊢
  cases hn : inp.is_new_epoch
  · rw [step_tail_false cfg _ inp _ hn] at hc
    exact absurd hc (by simp)
  · rw [step_tail_true cfg _ inp _ hn] at ht ⊢
    exact epoch_boundary_epoch_succ cfg (advanced cfg s inp) inp.metric_dev ht

theorem run_conversions_zero (cfg : Config) (l : List IterInput) :
    ∀ s : LoopState, cfg.convert_to_sgd_epoch < s.epoch →
    (run cfg s l).conversions = 0 := by
  induction l with
  | nil => intro s _; rfl
  | cons inp rest ih =>
    intro s hlt
    cases hf : inp.fail with
    | some e => rw [run_cons_fail cfg s inp rest e hf]
    | none =>
      have hcv : (loop_iter cfg s inp).converted = false := by
        cases hc : (loop_iter cfg s inp).converted
        · rfl
        · exact absurd (loop_iter_converted_eq cfg s inp hc) (by omega)
      cases ht : (loop_iter cfg s inp).terminated
      · rw [run_cons_ok_cont cfg s inp rest hf ht]
        have hge := loop_iter_epoch_ge cfg s inp
        have h0 := ih (loop_iter cfg s inp).state (by omega)
        simp [hcv, h0]
      · rw [run_cons_ok_term cfg s inp rest hf ht]
        simp [hcv]

theorem run_conversions_le_one (cfg : Config) (l : List IterInput) :
    ∀ s : LoopState, (run cfg s l).conversions ≤ 1 := by
  induction l with
  | nil => intro s; exact Nat.zero_le 1
  | cons inp rest ih =>
    intro s
    cases hf : inp.fail with
    | some e =>
      rw [run_cons_fail cfg s inp rest e hf]
      exact Nat.zero_le 1
    | none =>
      cases ht : (loop_iter cfg s inp).terminated
      · rw [run_cons_ok_cont cfg s inp rest hf ht]
        cases hcv : (loop_iter cfg s inp).converted
        · simpa [hcv] using ih (loop_iter cfg s inp).state
        · have heq := loop_iter_converted_eq cfg s inp hcv
          have hsucc := loop_iter_epoch_succ cfg s inp ht hcv
          have h0 := run_conversions_zero cfg rest (loop_iter cfg s inp).state
            (by omega)
          simp [hcv, h0]
      · rw [run_cons_ok_term cfg s inp rest hf ht]
        cases hcv : (loop_iter cfg s inp).converted <;> simp [hcv]

theorem run_marker_iff (cfg : Config) (l : List IterInput) :
    ∀ s : LoopState,
    ((run cfg s l).marker = true ↔
      ((run cfg s l).outcome = Outcome.early_stopped ∨
        (run cfg s l).outcome = Outcome.reached_num_epoch)) := by
  induction l with
  | nil => intro s; rw [run_nil]; simp
  | cons inp rest ih =>
    intro s
    cases hf : inp.fail with
    | some e => rw [run_cons_fail cfg s inp rest e hf]; simp
    | none =>
      cases ht : (loop_iter cfg s inp).terminated
      · rw [run_cons_ok_cont cfg s inp rest hf ht]
        exact ih _
      · rw [run_cons_ok_term cfg s inp rest hf ht]
        cases he : (loop_iter cfg s inp).early_stop <;> simp

theorem run_append_fail (cfg : Config) (inp : IterInput) (e : String)
    (hf : inp.fail = some e) (l rest : List IterInput) :
    ∀ s : LoopState, (run cfg s l).outcome = Outcome.running →
    run cfg s (l ++ inp :: rest)
      = ⟨(run cfg s l).state, (run cfg s l).ckpts, (run cfg s l).conversions,
         false, Outcome.failed e⟩ := by
  induction l with
  | nil =>
    intro s _
    rw [List.nil_append, run_cons_fail cfg s inp rest e hf, run_nil]
  | cons p ps ih =>
    intro s hr
    cases hp : p.fail with
    | some e2 =>
      rw [run_cons_fail cfg s p ps e2 hp] at hr
      simp at hr
    | none =>
      cases ht : (loop_iter cfg s p).terminated
      · rw [run_cons_ok_cont cfg s p ps hp ht] at hr
        have hr2 : (run cfg (loop_iter cfg s p).state ps).outcome
            = Outcome.running := hr
        rw [List.cons_append,
            run_cons_ok_cont cfg s p (ps ++ inp :: rest) hp ht,
            run_cons_ok_cont cfg s p ps hp ht, ih _ hr2]
      · rw [run_cons_ok_term cfg s p ps hp ht] at hr
        cases he : (loop_iter cfg s p).early_stop <;> rw [he] at hr <;>
          simp at hr

/-! ## The checkpoint-snapshot invariant -/

/-- Invariant: during warm-up (`epoch < eval_start_epoch`) the
`not_improved_epoch` counter is still 0, because it is only ever touched at
evaluated boundaries and `epoch` never decreases. -/
def warm_zero (cfg : Config) (s : LoopState) : Prop :=
  s.epoch < cfg.eval_start_epoch → s.not_improved_epoch = 0

theorem epoch_boundary_ckpt_shape (cfg : Config) (s : LoopState) (m : ℚ)
    (hz : warm_zero cfg s) :
    ∀ c ∈ (epoch_boundary cfg s m).ckpts,
      c = write_checkpoint c.snapshot ∧
        c.snapshot.not_improved_epoch = 0 := by
  intro c hc
  by_cases hw : s.epoch < cfg.eval_start_epoch
  · rw [epoch_boundary_warm cfg s m hw] at hc
    have hc2 : c = write_checkpoint s := by simpa using hc
    subst hc2
    exact ⟨rfl, hz hw⟩
  · rw [epoch_boundary_eval cfg s m hw] at hc
    by_cases him : m < s.metric_dev_best
    · rw [if_pos him, eval_tail_ckpts] at hc
      have hc2 : c = write_checkpoint
          { s with metric_dev_best := m, not_improved_epoch := 0 } := by
        simpa using hc
      subst hc2
      exact ⟨rfl, rfl⟩
    · rw [if_neg him, eval_tail_ckpts] at hc
      simp at hc

theorem epoch_boundary_warm_zero (cfg : Config) (s : LoopState) (m : ℚ)
    (hz : warm_zero cfg s) :
    warm_zero cfg (epoch_boundary cfg s m).state := by
  by_cases hw : s.epoch < cfg.eval_start_epoch
  · rw [epoch_boundary_warm cfg s m hw]
    intro h2
    by_cases hn : s.epoch = cfg.num_epoch <;> simp [hn] at h2 ⊢ <;>
      exact hz (by omega)
  · intro h2
    exfalso
    have hge := epoch_boundary_epoch_ge cfg s m
    omega

theorem loop_iter_warm_zero (cfg : Config) (s : LoopState) (inp : IterInput)
    (hz : warm_zero cfg s) :
    warm_zero cfg (loop_iter cfg s inp).state := by
  rw [loop_iter_eq]
  cases hn : inp.is_new_epoch
  · rw [step_tail_false cfg _ inp _ hn]
    exact hz
  · rw [step_tail_true cfg _ inp _ hn]
    exact epoch_boundary_warm_zero cfg (advanced cfg s inp) inp.metric_dev hz

theorem loop_iter_ckpt_shape (cfg : Config) (s : LoopState) (inp : IterInput)
    (hz : warm_zero cfg s) :
    ∀ c ∈ (loop_iter cfg s inp).ckpts,
      c = write_checkpoint c.snapshot ∧
        c.snapshot.not_improved_epoch = 0 := by
  intro c hc
  rw [loop_iter_eq] at hc
  cases hn : inp.is_new_epoch
  · rw [step_tail_false cfg _ inp _ hn] at hc
    simp at hc
  · rw [step_tail_true cfg _ inp _ hn] at hc
    exact epoch_boundary_ckpt_shape cfg (advanced cfg s inp) inp.metric_dev
      hz c hc

theorem run_ckpt_shape (cfg : Config) (l : List IterInput) :
    ∀ s : LoopState, warm_zero cfg s →
    ∀ c ∈ (run cfg s l).ckpts,
      c = write_checkpoint c.snapshot ∧
        c.snapshot.not_improved_epoch = 0 := by
  induction l with
  | nil =>
    intro s _ c hc
    rw [run_nil] at hc
    simp at hc
  | cons inp rest ih =>
    intro s hz c hc
    cases hf : inp.fail with
    | some e =>
      rw [run_cons_fail cfg s inp rest e hf] at hc
      simp at hc
    | none =>
      cases ht : (loop_iter cfg s inp).terminated
      · rw [run_cons_ok_cont cfg s inp rest hf ht] at hc
        rcases List.mem_append.mp hc with h1 | h1
        · exact loop_iter_ckpt_shape cfg s inp hz c h1
        · exact ih _ (loop_iter_warm_zero cfg s inp hz) c h1
      · rw [run_cons_ok_term cfg s inp rest hf ht] at hc
        exact loop_iter_ckpt_shape cfg s inp hz c hc

/-- Claim C6: the checkpoint round trip restores `epoch`, `step`,
`learning_rate` and `metric_dev_best` exactly, and for every checkpoint a
run writes, the state rebuilt by the restart path equals the full
TrainingState (including `not_improved_epoch`) at the moment of writing:
every checkpoint is written with `not_improved_epoch = 0`, which is exactly
what the restart re-initializes it to. -/
theorem checkpoint_roundtrip :
    (∀ (epoch : Nat) (step : Int) (lr best : ℚ),
      load_checkpoint (save_checkpoint epoch step lr best)
        = (epoch, step, lr, best)) ∧
    (∀ (cfg : Config) (inputs : List IterInput) (c : Checkpoint),
      c ∈ (run cfg (init_state cfg) inputs).ckpts →
      (restart_state cfg c.file).trainingState
        = c.snapshot.trainingState) := by
  refine ⟨fun _ _ _ _ => rfl, fun cfg inputs c hc => ?_⟩
  have hz : warm_zero cfg (init_state cfg) := fun _ => rfl
  obtain ⟨hcw, hnie⟩ := run_ckpt_shape cfg inputs (init_state cfg) hz c hc
  have hf : c.file = save_checkpoint c.snapshot.epoch c.snapshot.step
      c.snapshot.learning_rate c.snapshot.metric_dev_best :=
    congrArg Checkpoint.file hcw
  rw [hf]
  simp [restart_state, save_checkpoint, LoopState.trainingState, hnie]

/-- Warm-up configuration with print interval 1, used to exercise a
checkpoint-writing run in the C6 witness. -/
def cfgF : Config := { cfgA with eval_start_epoch := 3, print_step := 1 }

/-- A boundary iteration input (no failure). -/
def inpNE : IterInput := { inpA with is_new_epoch := true }

/-- The checkpoint the run of the C6 witness writes at its first (warm-up)
epoch boundary. -/
def cW : Checkpoint := write_checkpoint { init_state cfgF with step := 1 }

/-- Witness for C6: a one-iteration warm-up run writes exactly `cW`, and
the restart path rebuilds `cW`'s full snapshot TrainingState. -/
theorem checkpoint_roundtrip_witness :
    cW ∈ (run cfgF (init_state cfgF) [inpNE]).ckpts ∧
    (restart_state cfgF cW.file).trainingState
      = cW.snapshot.trainingState := by
  have he : (run cfgF (init_state cfgF) [inpNE]).ckpts = [cW] := by decide
  have hm : cW ∈ (run cfgF (init_state cfgF) [inpNE]).ckpts := by
    rw [he]
    exact List.mem_singleton_self cW
  exact ⟨hm, checkpoint_roundtrip.2 cfgF [inpNE] cW hm⟩

/-- Configuration whose conversion epoch (2) falls inside the warm-up
period (evaluation starts at epoch 5). -/
def cfgG : Config :=
  { cfgA with eval_start_epoch := 5, convert_to_sgd_epoch := 2 }

/-- State at the boundary of epoch 2 (for the C7 counterexample). -/
def sG : LoopState := { sA with epoch := 2 }

/-- Counterexample to C7: at the epoch boundary with
`epoch = convert_to_sgd_epoch = 2` but `epoch < eval_start_epoch = 5`, the
optimizer is not replaced — the conversion is not gated purely by epoch
equality: it also requires the evaluated branch and that early stop did not
fire. -/
theorem convert_gate_cex :
    sG.epoch = cfgG.convert_to_sgd_epoch ∧
    (epoch_boundary cfgG sG 50).converted = false ∧
    (epoch_boundary cfgG sG 50).state.optimizer.kind = "adam" := by
  decide

/-- Claim C7 (amended): at an evaluated epoch boundary
(`epoch >= eval_start_epoch`), the convert-to-SGD transition fires exactly
when early stop did not fire and `epoch = convert_to_sgd_epoch`; when it
fires, the optimizer becomes SGD with the current (post-decay) learning
rate and the configured weight decay and gradient clip, and the
weight-noise flag is enabled exactly when `weight_noise_std > 0` (otherwise
left unchanged); over any run the conversion happens at most once. -/
theorem convert_to_sgd_gate (cfg : Config) (s : LoopState) (m : ℚ)
    (h : cfg.eval_start_epoch ≤ s.epoch) :
    ((epoch_boundary cfg s m).converted = true ↔
      ((epoch_boundary cfg s m).early_stop = false ∧
        s.epoch = cfg.convert_to_sgd_epoch)) ∧
    ((epoch_boundary cfg s m).converted = true →
      ((epoch_boundary cfg s m).state.optimizer
          = ⟨"sgd", (epoch_boundary cfg s m).state.learning_rate,
             cfg.weight_decay, cfg.clip_grad_norm⟩ ∧
        (epoch_boundary cfg s m).state.weight_noise_injection
          = (if 0 < cfg.weight_noise_std then true
             else s.weight_noise_injection))) ∧
    (∀ (s0 : LoopState) (inputs : List IterInput),
      (run cfg s0 inputs).conversions ≤ 1) := by
  have hlt : ¬ s.epoch < cfg.eval_start_epoch := not_lt.mpr h
  refine ⟨?_, ?_, fun s0 inputs => run_conversions_le_one cfg inputs s0⟩
  · rw [epoch_boundary_eval cfg s m hlt]
    by_cases him : m < s.metric_dev_best <;>
      simp [him, eval_tail_converted, eval_tail_early_stop]
  · intro hcv
    rw [epoch_boundary_eval cfg s m hlt] at hcv ⊢
    by_cases him : m < s.metric_dev_best
    · rw [if_pos him] at hcv ⊢
      rw [eval_tail_converted] at hcv
      simp only [Bool.and_eq_true, Bool.not_eq_eq_eq_not, Bool.not_true,
        decide_eq_false_iff_not, decide_eq_true_eq] at hcv
      obtain ⟨hne, hcts⟩ := hcv
      rw [eval_tail_state_optimizer, eval_tail_state_lr, eval_tail_state_wni]
      simp_all
    · rw [if_neg him] at hcv ⊢
      rw [eval_tail_converted] at hcv
      simp only [Bool.and_eq_true, Bool.not_eq_eq_eq_not, Bool.not_true,
        decide_eq_false_iff_not, decide_eq_true_eq] at hcv
      obtain ⟨hne, hcts⟩ := hcv
      rw [eval_tail_state_optimizer, eval_tail_state_lr, eval_tail_state_wni]
      simp_all

/-- `cfgA` with the conversion epoch set to 3 (for the C7 witness). -/
def cfgH : Config := { cfgA with convert_to_sgd_epoch := 3 }

/-- `sA` with no prior non-improved epochs, so early stop does not fire
(for the C7 witness). -/
def sH : LoopState := { sA with not_improved_epoch := 0 }

/-- Witness for C7 (amended): at epoch 3 with conversion epoch 3 and no
early stop, the conversion fires and installs SGD at the current learning
rate; a run performs at most one conversion. -/
theorem convert_to_sgd_gate_witness :
    (epoch_boundary cfgH sH 50).converted = true ∧
    (epoch_boundary cfgH sH 50).state.optimizer
      = ⟨"sgd", (epoch_boundary cfgH sH 50).state.learning_rate,
         cfgH.weight_decay, cfgH.clip_grad_norm⟩ ∧
    (run cfgH sH []).conversions ≤ 1 := by
  have h := convert_to_sgd_gate cfgH sH 50 (by decide)
  have hcv : (epoch_boundary cfgH sH 50).converted = true :=
    h.1.mpr ⟨by decide, by decide⟩
  exact ⟨hcv, (h.2.1 hcv).1, h.2.2 sH []⟩

/-- Claim C8: the COMPLETE marker is written exactly when the loop
terminates normally (early stop or reaching `num_epoch`); a collaborator
exception aborts the run with no marker and leaves the checkpoints written
so far untouched. -/
theorem completion_marker (cfg : Config) (s : LoopState)
    (inputs : List IterInput) :
    ((run cfg s inputs).marker = true ↔
      ((run cfg s inputs).outcome = Outcome.early_stopped ∨
        (run cfg s inputs).outcome = Outcome.reached_num_epoch)) ∧
    (∀ e, (run cfg s inputs).outcome = Outcome.failed e →
      (run cfg s inputs).marker = false) ∧
    (∀ (pre rest : List IterInput) (inp : IterInput) (e : String),
      inp.fail = some e → (run cfg s pre).outcome = Outcome.running →
      ((run cfg s (pre ++ inp :: rest)).ckpts = (run cfg s pre).ckpts ∧
        (run cfg s (pre ++ inp :: rest)).outcome = Outcome.failed e ∧
        (run cfg s (pre ++ inp :: rest)).marker = false)) := by
  refine ⟨run_marker_iff cfg inputs s, fun e he => ?_,
    fun pre rest inp e hf hr => ?_⟩
  · cases hm : (run cfg s inputs).marker
    · rfl
    · exfalso
      rcases (run_marker_iff cfg inputs s).mp hm with h1 | h1 <;>
        rw [he] at h1 <;> exact Outcome.noConfusion h1
  · have hq := run_append_fail cfg inp e hf pre rest s hr
    rw [hq]
    exact ⟨rfl, rfl, rfl⟩

/-- An iteration input on which the updater raises (for the C8 witness). -/
def inpBad : IterInput := { inpA with fail := some "err" }

/-- Witness for C8: a run whose first iteration raises ends in the failed
outcome, writes no checkpoint and no COMPLETE marker. -/
theorem completion_marker_witness :
    ((run cfgA sA ([] ++ inpBad :: [])).ckpts = (run cfgA sA []).ckpts ∧
      (run cfgA sA ([] ++ inpBad :: [])).outcome = Outcome.failed "err" ∧
      (run cfgA sA ([] ++ inpBad :: [])).marker = false) ∧
    (run cfgA sA [inpBad]).marker = false :=
  ⟨(completion_marker cfgA sA []).2.2 [] [] inpBad "err" rfl rfl,
    (completion_marker cfgA sA [inpBad]).2.1 "err" rfl⟩

/-- Claim C9: at an evaluated epoch boundary the label type selects exactly
one Metric Evaluator (priority order of the source: `'word'` equality, then
`'character'` substring, then `'phone'` substring), and a label type
matching none of them raises `ValueError` instead of defaulting. -/
theorem evaluator_selection (lt : List Char) :
    (lt = "word".toList → select_evaluator lt = .ok .word) ∧
    (lt ≠ "word".toList → has_sub "character".toList lt = true →
      select_evaluator lt = .ok .char) ∧
    (lt ≠ "word".toList → has_sub "character".toList lt = false →
      has_sub "phone".toList lt = true →
      select_evaluator lt = .ok .phone) ∧
    (select_evaluator lt = .value_error lt ↔
      (lt ≠ "word".toList ∧ has_sub "character".toList lt = false ∧
        has_sub "phone".toList lt = false)) := by
  unfold select_evaluator
  split_ifs <;> simp_all

/-- Witness for C9: the label type `"speech"` matches no variant, so the
dispatch raises `ValueError`; `"word"` and label types containing
`"character"` or `"phone"` each select their evaluator. -/
theorem evaluator_selection_witness :
    select_evaluator "speech".toList = .value_error "speech".toList ∧
    select_evaluator "word".toList = .ok .word ∧
    select_evaluator "character_wb".toList = .ok .char ∧
    select_evaluator "phone61".toList = .ok .phone := by
  refine ⟨(evaluator_selection "speech".toList).2.2.2.mpr
      ⟨by decide, by decide, by decide⟩,
    (evaluator_selection "word".toList).1 (by decide),
    (evaluator_selection "character_wb".toList).2.1 (by decide) (by decide),
    (evaluator_selection "phone61".toList).2.2.1 (by decide) (by decide)
      (by decide)⟩

/-- Claim C10: `GatedConvEncoder.forward` returns the input lengths list
unchanged for every input batch; the encoder never shortens or rescales the
per-sequence lengths. -/
theorem forward_xlens_unchanged {T : Type} (enc : GatedConvEncoder T)
    (xs : T) (xlens : List Nat) :
    (enc.forward xs xlens).2 = xlens := rfl

end NeuralSP
